import Mathlib

/-!
Verification of the Coral Shopping backend's core logic, embedded from
`src/main.py` and `src/schemas.py`: the filter builders for product
listing, recommendations, comparison and orders listing, the
recommendation result ranker, and the order-total computation.

Numeric prices (Python floats in the source) are modelled as rationals;
every claim under study involves only exact decimal arithmetic.  The
document store (`database.py`, which is not among the sources) is
modelled from the spec as a list of documents in insertion order with a
find-with-filter-and-limit operation.
-/

abbrev Money := ℚ

/-- A product document as stored (class `Product` in `src/schemas.py`),
restricted to the fields the filter builders and the ranker read.
`price` and `rating` are optional because the ranker reads them with
`x.get("price", 0)` / `x.get("rating", 0)`. -/
structure ProductDoc where
  title : String
  description : Option String
  price : Option Money
  category : String
  tags : List String
  rating : Option Money
  deriving DecidableEq

/-- The `{"$gte": _, "$lte": _}` sub-dictionary built for the `price`
field in `get_products` / `get_recommendations`; `none` means the
corresponding key is absent. -/
structure PriceCond where
  gte : Option Money
  lte : Option Money
  deriving DecidableEq

/-- One member of a `$or` list as built in `src/main.py`: a
case-insensitive regex (used as a substring pattern) on
title/description/tags, or a `$in` membership predicate on
category/tags. -/
inductive OrClause where
  | regexTitle (q : String)
  | regexDescription (q : String)
  | regexTags (q : String)
  | inCategory (prefs : List String)
  | inTags (prefs : List String)
  deriving DecidableEq

/-- The filter dictionary built for queries against the product
collection: an optional exact-match `category` key, an optional `price`
range key, and a `$or` list (`[]` means the `$or` key is absent). -/
structure ProductFilter where
  category : Option String := none
  price : Option PriceCond := none
  orList : List OrClause := []
  deriving DecidableEq

/-- Filter construction of `GET /products` (`get_products`,
`src/main.py` lines 95-111).  Python truthiness: `if category:` and
`if q:` fire only for a present, non-empty string. -/
def get_products_filter (category q : Option String)
    (minPrice maxPrice : Option Money) : ProductFilter :=
  let f : ProductFilter := {}
  let f := match category with
    | some c => if c = "" then f else { f with category := some c }
    | none => f
  let f := if minPrice.isSome || maxPrice.isSome then
      { f with price := some ⟨minPrice, maxPrice⟩ } else f
  match q with
  | some s => if s = "" then f else
      { f with orList := [.regexTitle s, .regexDescription s, .regexTags s] }
  | none => f

/-- The body of `POST /recommendations` (class `RecommendationRequest`
in `src/main.py`): `budget_min` defaults to `0` (not to `None`). -/
structure RecommendationRequest where
  budget_min : Option Money := some 0
  budget_max : Option Money := none
  preferences : Option (List String) := none
  deriving DecidableEq

/-- Filter construction of `POST /recommendations`
(`get_recommendations`, `src/main.py` lines 128-141).  Python
truthiness: `if req.preferences:` fires only for a present, non-empty
list. -/
def get_recommendations_filter (req : RecommendationRequest) : ProductFilter :=
  let f : ProductFilter := {}
  let f := if req.budget_min.isSome || req.budget_max.isSome then
      { f with price := some ⟨req.budget_min, req.budget_max⟩ } else f
  match req.preferences with
  | some ps => if ps.isEmpty then f else
      { f with orList := [.inCategory ps, .inTags ps] }
  | none => f

/-- Case-insensitive substring containment: `q` occurs in `s` after
lower-casing both.  This is the spec's reading of the
`{"$regex": q, "$options": "i"}` conditions the builder emits
("case-insensitive substring match"). -/
def ciContains (q s : String) : Prop :=
  q.data.map Char.toLower <:+: s.data.map Char.toLower

instance (q s : String) : Decidable (ciContains q s) :=
  inferInstanceAs (Decidable (_ <:+: _))

/-- Modelled from the spec: the document store's evaluation of one
`$or` member on a document (the store itself, `database.py`, is not
among the sources; §4.1 of the spec fixes the intended semantics).  A
regex condition on a missing `description` matches nothing; a regex or
`$in` condition on the array field `tags` matches when some element
matches. -/
def OrClause.holds : OrClause → ProductDoc → Bool
  | .regexTitle q, d => decide (ciContains q d.title)
  | .regexDescription q, d =>
      match d.description with
      | some s => decide (ciContains q s)
      | none => false
  | .regexTags q, d => d.tags.any fun t => decide (ciContains q t)
  | .inCategory prefs, d => prefs.contains d.category
  | .inTags prefs, d => d.tags.any fun t => prefs.contains t

/-- Modelled from the spec: the store's evaluation of the `price` range
sub-dictionary.  A document without a `price` value satisfies no range
condition. -/
def PriceCond.holds (c : PriceCond) (price : Option Money) : Bool :=
  match price with
  | some v =>
      (match c.gte with | some lo => decide (lo ≤ v) | none => true) &&
      (match c.lte with | some hi => decide (v ≤ hi) | none => true)
  | none => false

/-- Modelled from the spec: whether a document matches a filter — all
top-level conditions combined with logical AND, and the `$or` list
(when present) requiring at least one member to hold. -/
def ProductFilter.matches (f : ProductFilter) (d : ProductDoc) : Bool :=
  (match f.category with | some c => d.category == c | none => true) &&
  (match f.price with | some pc => pc.holds d.price | none => true) &&
  (f.orList.isEmpty || f.orList.any fun c => c.holds d)

/-- Modelled from the spec: `database.get_documents` (not among the
sources) — "find matching documents, limit N", returning matches in
insertion order. -/
def get_documents (store : List ProductDoc) (f : ProductFilter)
    (limit : ℕ) : List ProductDoc :=
  (store.filter fun d => f.matches d).take limit

/-- The `GET /products` retrieval: the built filter handed to the store
(`src/main.py` line 113). -/
def get_products (store : List ProductDoc) (category q : Option String)
    (minPrice maxPrice : Option Money) (limit : ℕ) : List ProductDoc :=
  get_documents store (get_products_filter category q minPrice maxPrice) limit

/-- The sort key of the ranker (`src/main.py` line 145):
`(x.get("price", 0), -x.get("rating", 0))`. -/
def rankKey (d : ProductDoc) : Money × Money :=
  (d.price.getD 0, -(d.rating.getD 0))

/-- Lexicographic comparison of sort keys, as Python's tuple comparison
performs it for an ascending sort. -/
def rankLE (a b : ProductDoc) : Prop :=
  (rankKey a).1 < (rankKey b).1 ∨
    ((rankKey a).1 = (rankKey b).1 ∧ (rankKey a).2 ≤ (rankKey b).2)

instance : DecidableRel rankLE := fun a b =>
  inferInstanceAs (Decidable ((rankKey a).1 < (rankKey b).1 ∨
    ((rankKey a).1 = (rankKey b).1 ∧ (rankKey a).2 ≤ (rankKey b).2)))

/-- The ranker, `items.sort(key=lambda x: (x.get("price", 0),
-x.get("rating", 0)))` (`src/main.py` line 145): Python's `list.sort`
is a stable comparison sort, embedded as insertion sort on `rankLE`. -/
def ranker_sort (items : List ProductDoc) : List ProductDoc :=
  List.insertionSort rankLE items

/-- The `POST /recommendations` pipeline (`src/main.py` lines 143-148):
retrieve at most 24 matching documents, then rank them. -/
def get_recommendations (store : List ProductDoc)
    (req : RecommendationRequest) : List ProductDoc :=
  ranker_sort (get_documents store (get_recommendations_filter req) 24)

/-- Validity of a store identifier.  Modelled from the spec: the bson
library consuming `ObjectId(x)` is external; the store's valid
identifier format is a 24-character hexadecimal string. -/
def isValidObjectId (s : String) : Bool :=
  s.length == 24 &&
    s.data.all fun c =>
      c.isDigit || ('a' ≤ c && c ≤ 'f') || ('A' ≤ c && c ≤ 'F')

inductive CompareError where
  | invalidIdentifier
  deriving DecidableEq

/-- Conversion of one request id, `ObjectId(x)` in `compare_products`
(`src/main.py` line 159): a malformed id raises `InvalidIdentifier`. -/
def parseObjectId (s : String) : Except CompareError String :=
  if isValidObjectId s then .ok s else .error .invalidIdentifier

/-- The list comprehension `[ObjectId(x) for x in req.ids]`
(`src/main.py` line 159): the first malformed id aborts the whole
conversion. -/
def parseObjectIds : List String → Except CompareError (List String)
  | [] => .ok []
  | x :: xs =>
    match parseObjectId x with
    | .error e => .error e
    | .ok o =>
      match parseObjectIds xs with
      | .error e => .error e
      | .ok os => .ok (o :: os)

instance : DecidableEq (Except CompareError (List String))
  | .ok a, .ok b => decidable_of_iff (a = b) (by simp)
  | .ok _, .error _ => isFalse (by simp)
  | .error _, .ok _ => isFalse (by simp)
  | .error a, .error b => decidable_of_iff (a = b) (by simp)

/-- Observable outcome of `POST /compare`: the store queries issued
(each query is the id list of an `{"_id": {"$in": ids}}` filter) and
the result or error. -/
structure CompareOutcome where
  queries : List (List String)
  result : Except CompareError (List String)
  deriving DecidableEq

/-- The `POST /compare` endpoint (`compare_products`, `src/main.py`
lines 157-163): ids are converted first; only on success is the single
`{"_id": {"$in": ids}}` store query issued. -/
def compare_products (ids : List String) : CompareOutcome :=
  match parseObjectIds ids with
  | .error e => { queries := [], result := .error e }
  | .ok oids => { queries := [oids], result := .ok oids }

/-- An order document as stored (class `Order` in `src/schemas.py`),
restricted to the field the orders-listing filter reads. -/
structure OrderDoc where
  customer_id : String
  deriving DecidableEq

/-- Filter construction of `GET /orders` (`list_orders`, `src/main.py`
line 211): `{"customer_id": customer_id} if customer_id else {}`, where
Python truthiness treats both `None` and `""` as absent.  `none` is the
empty filter; `some c` is the exact-match filter on `customer_id`. -/
def list_orders_filter (customer_id : Option String) : Option String :=
  match customer_id with
  | some c => if c = "" then none else some c
  | none => none

/-- Modelled from the spec: the store's evaluation of the orders-listing
filter on an order document. -/
def orders_filter_matches (f : Option String) (d : OrderDoc) : Bool :=
  match f with
  | some c => d.customer_id == c
  | none => true

inductive DeliveryOption where
  | pickup
  | delivery
  deriving DecidableEq

/-- An order line item (class `OrderItem` in `src/schemas.py`). -/
structure OrderItem where
  product_id : String
  title : String
  unit_price : Money
  quantity : ℕ
  deriving DecidableEq

/-- The body of `POST /orders` (class `CreateOrderRequest` in
`src/main.py`). -/
structure CreateOrderRequest where
  customer_id : String
  items : List OrderItem
  delivery_option : DeliveryOption := .delivery
  delivery_address : Option String := none
  notes : Option String := none
  deriving DecidableEq

/-- The persisted order record (class `Order` in `src/schemas.py`),
restricted to the computed fields and their inputs. -/
structure OrderRecord where
  customer_id : String
  items : List OrderItem
  subtotal : Money
  shipping_fee : Money
  total : Money
  delivery_option : DeliveryOption
  deriving DecidableEq

/-- The totals computation and order construction of `create_order`
(`src/main.py` lines 176-194). -/
def create_order_record (req : CreateOrderRequest) : OrderRecord :=
  let subtotal := (req.items.map fun it => it.unit_price * (it.quantity : Money)).sum
  let shipping_fee : Money := if req.delivery_option = .delivery then 1200 else 0
  let total := subtotal + shipping_fee
  { customer_id := req.customer_id, items := req.items, subtotal := subtotal,
    shipping_fee := shipping_fee, total := total,
    delivery_option := req.delivery_option }

/-- The static bank-transfer instruction block in the `POST /orders`
response (`src/main.py` lines 199-205). -/
structure BankTransferInstructions where
  account_name : String
  bank : String
  account_number : String
  amount : Money
  narration : String
  deriving DecidableEq

/-- The `POST /orders` response (`src/main.py` lines 197-206); the
generated id is supplied by the store's insert operation. -/
structure CreateOrderResponse where
  id : String
  bank_transfer_instructions : BankTransferInstructions
  deriving DecidableEq

/-- The response construction of `create_order` (`src/main.py` lines
176-206), parameterised by the store-assigned id. -/
def create_order (req : CreateOrderRequest) (inserted_id : String) :
    CreateOrderResponse :=
  let subtotal := (req.items.map fun it => it.unit_price * (it.quantity : Money)).sum
  let shipping_fee : Money := if req.delivery_option = .delivery then 1200 else 0
  let total := subtotal + shipping_fee
  { id := inserted_id,
    bank_transfer_instructions :=
      { account_name := "Coral Shopping LTD"
        bank := "GTBank"
        account_number := "0123456789"
        amount := total
        narration := "ORDER-" ++ (inserted_id.take 6).toUpper } }

/-! ### Example inputs -/

/-- A product document with the given price and rating and empty text
fields, as in the spec's ranking example. -/
def exDoc (p r : Money) : ProductDoc :=
  { title := "", description := none, price := some p, category := "",
    tags := [], rating := some r }

/-- The two line items of the spec's order-total example. -/
def exampleItems : List OrderItem :=
  [{ product_id := "p1", title := "first", unit_price := 100, quantity := 2 },
   { product_id := "p2", title := "second", unit_price := 50, quantity := 1 }]

/-- The order-total example with the delivery option. -/
def exampleOrderDelivery : CreateOrderRequest :=
  { customer_id := "c1", items := exampleItems, delivery_option := .delivery }

/-- The order-total example with the pickup option. -/
def exampleOrderPickup : CreateOrderRequest :=
  { customer_id := "c1", items := exampleItems, delivery_option := .pickup }

/-! ### Ranker lemmas -/

instance : IsTotal ProductDoc rankLE := ⟨fun a b => by
  rcases lt_trichotomy (rankKey a).1 (rankKey b).1 with h | h | h
  · exact Or.inl (Or.inl h)
  · rcases le_total (rankKey a).2 (rankKey b).2 with h2 | h2
    · exact Or.inl (Or.inr ⟨h, h2⟩)
    · exact Or.inr (Or.inr ⟨h.symm, h2⟩)
  · exact Or.inr (Or.inl h)⟩

instance : IsTrans ProductDoc rankLE := ⟨fun a b c hab hbc => by
  rcases hab with h1 | ⟨e1, l1⟩ <;> rcases hbc with h2 | ⟨e2, l2⟩
  · exact Or.inl (h1.trans h2)
  · exact Or.inl (e2 ▸ h1)
  · exact Or.inl (lt_of_le_of_lt (le_of_eq e1) h2)
  · exact Or.inr ⟨e1.trans e2, l1.trans l2⟩⟩

/-- Inserting an element with `List.orderedInsert` on `rankLE` places it
before every element of equal sort key, so the subsequence at any fixed
key is preserved up to prepending the new element. -/
theorem filter_orderedInsert_rankKey (x : ProductDoc) (k : Money × Money)
    (l : List ProductDoc) :
    (List.orderedInsert rankLE x l).filter (fun d => decide (rankKey d = k))
      = if rankKey x = k
        then x :: l.filter (fun d => decide (rankKey d = k))
        else l.filter (fun d => decide (rankKey d = k)) := by
  induction l with
  | nil => by_cases hx : rankKey x = k <;> simp [hx]
  | cons y ys ih =>
    by_cases hxy : rankLE x y
    · by_cases hx : rankKey x = k <;>
        simp [List.orderedInsert, hxy, List.filter_cons, hx]
    · have hy : rankKey x = k → ¬(rankKey y = k) := fun hx hyk =>
        hxy (Or.inr ⟨congrArg Prod.fst (hx.trans hyk.symm),
          le_of_eq (congrArg Prod.snd (hx.trans hyk.symm))⟩)
      by_cases hx : rankKey x = k
      · simp [List.orderedInsert, hxy, List.filter_cons, hx, hy hx, ih]
      · simp [List.orderedInsert, hxy, List.filter_cons, hx, ih]

/-- Stability of the ranker: the retrieval-order subsequence of documents
with any fixed sort key is unchanged by sorting. -/
theorem ranker_sort_stable (k : Money × Money) (l : List ProductDoc) :
    (ranker_sort l).filter (fun d => decide (rankKey d = k))
      = l.filter (fun d => decide (rankKey d = k)) := by
  induction l with
  | nil => rfl
  | cons a l ih =>
    simp only [ranker_sort, List.insertionSort] at ih ⊢
    rw [filter_orderedInsert_rankKey, ih]
    by_cases ha : rankKey a = k <;> simp [List.filter_cons, ha]

/-! ### Claims -/

/-- C1: for every order-creation request the computed subtotal is the sum
of unit_price × quantity over the items, the shipping fee is 1200 for
delivery and 0 for pickup, and the persisted total is subtotal plus
shipping fee; the spec's example items give subtotal 250, fee 1200 and
total 1450 with delivery, and total 250 with pickup. -/
theorem order_totals_correct (req : CreateOrderRequest) :
    ((create_order_record req).subtotal
        = (req.items.map fun it => it.unit_price * (it.quantity : Money)).sum) ∧
    ((create_order_record req).shipping_fee
        = if req.delivery_option = DeliveryOption.delivery then (1200 : Money) else 0) ∧
    ((create_order_record req).total
        = (create_order_record req).subtotal + (create_order_record req).shipping_fee) ∧
    (create_order_record exampleOrderDelivery).subtotal = 250 ∧
    (create_order_record exampleOrderDelivery).shipping_fee = 1200 ∧
    (create_order_record exampleOrderDelivery).total = 1450 ∧
    (create_order_record exampleOrderPickup).total = 250 := by
  refine ⟨rfl, rfl, rfl, ?_, ?_, ?_, ?_⟩ <;>
    norm_num [create_order_record, exampleOrderDelivery, exampleOrderPickup,
      exampleItems] <;> decide

/-- C9: the order-creation response carries the generated id, a narration
equal to "ORDER-" followed by the first six characters of the id in upper
case, and an amount equal to the computed order total. -/
theorem order_response_narration (req : CreateOrderRequest) (inserted_id : String) :
    (create_order req inserted_id).id = inserted_id ∧
    (create_order req inserted_id).bank_transfer_instructions.narration
      = "ORDER-" ++ (inserted_id.take 6).toUpper ∧
    (create_order req inserted_id).bank_transfer_instructions.amount
      = (create_order_record req).total :=
  ⟨rfl, rfl, rfl⟩

/-- C3 counterexample: a recommendation request with no body fields does
not produce the empty filter — `budget_min` defaults to 0, so the built
filter carries the price condition `{"$gte": 0}`. -/
theorem recommendations_default_filter_not_empty :
    get_recommendations_filter {} ≠ ({} : ProductFilter) := by decide

/-- C3 amended: with no parameters supplied, the product-listing and
orders-listing builders produce the empty filter, which matches every
document; the recommendation builder, whose `budget_min` defaults to 0,
instead produces the single price condition `{"$gte": 0}` — a non-empty
filter, though one that still matches every document carrying a
nonnegative price. -/
theorem empty_filter_construction :
    get_products_filter none none none none = ({} : ProductFilter) ∧
    (∀ d : ProductDoc, ProductFilter.matches {} d = true) ∧
    list_orders_filter none = none ∧
    (∀ d : OrderDoc, orders_filter_matches none d = true) ∧
    get_recommendations_filter {}
      = { price := some { gte := some 0, lte := none } } ∧
    (∀ d : ProductDoc, ∀ p : Money, d.price = some p → 0 ≤ p →
      (get_recommendations_filter {}).matches d = true) := by
  refine ⟨rfl, fun d => rfl, rfl, fun d => rfl, rfl, ?_⟩
  intro d p hp h0
  simp [get_recommendations_filter, ProductFilter.matches, PriceCond.holds, hp, h0]

/-- Witness for the amended C3 statement at a concrete document. -/
theorem empty_filter_construction_witness :
    ((exDoc 5 1).price = some 5 ∧ (0 : Money) ≤ 5) ∧
    (get_recommendations_filter {}).matches (exDoc 5 1) = true :=
  ⟨⟨rfl, by decide⟩,
    empty_filter_construction.2.2.2.2.2 (exDoc 5 1) 5 rfl (by decide)⟩

/-- C10: empty-string parameters are treated as absent: category="" and
q="" contribute no predicate to the product filter, and customer_id=""
yields the empty orders filter, which matches every order. -/
theorem empty_string_params_absent (minPrice maxPrice : Option Money) :
    get_products_filter (some "") none minPrice maxPrice
      = get_products_filter none none minPrice maxPrice ∧
    get_products_filter none (some "") minPrice maxPrice
      = get_products_filter none none minPrice maxPrice ∧
    list_orders_filter (some "") = list_orders_filter none ∧
    (∀ d : OrderDoc, orders_filter_matches (list_orders_filter (some "")) d = true) :=
  ⟨rfl, rfl, rfl, fun d => rfl⟩

/-- C7: the filter builders are pure functions of their parameters —
structurally equal inputs produce structurally equal outputs on every
endpoint.  In this embedding of the source, which reads and writes no
state outside its parameters, purity holds by construction. -/
theorem filter_builder_deterministic
    (c₁ c₂ q₁ q₂ : Option String) (m₁ m₂ x₁ x₂ : Option Money)
    (r₁ r₂ : RecommendationRequest) (i₁ i₂ : List String) (o₁ o₂ : Option String)
    (hc : c₁ = c₂) (hq : q₁ = q₂) (hm : m₁ = m₂) (hx : x₁ = x₂)
    (hr : r₁ = r₂) (hi : i₁ = i₂) (ho : o₁ = o₂) :
    get_products_filter c₁ q₁ m₁ x₁ = get_products_filter c₂ q₂ m₂ x₂ ∧
    get_recommendations_filter r₁ = get_recommendations_filter r₂ ∧
    compare_products i₁ = compare_products i₂ ∧
    list_orders_filter o₁ = list_orders_filter o₂ := by
  subst hc; subst hq; subst hm; subst hx; subst hr; subst hi; subst ho
  exact ⟨rfl, rfl, rfl, rfl⟩

/-- Witness for the determinism theorem at concrete inputs. -/
theorem filter_builder_deterministic_witness :
    get_products_filter (some "a") none (some 1) none
        = get_products_filter (some "a") none (some 1) none ∧
    get_recommendations_filter {} = get_recommendations_filter {} ∧
    compare_products [] = compare_products [] ∧
    list_orders_filter none = list_orders_filter none :=
  filter_builder_deterministic (some "a") (some "a") none none (some 1) (some 1)
    none none {} {} [] [] none none rfl rfl rfl rfl rfl rfl rfl

/-- A malformed id anywhere in the list aborts the id conversion of the
comparison endpoint with `invalidIdentifier`. -/
theorem parseObjectIds_error (ids : List String)
    (h : ∃ x ∈ ids, isValidObjectId x = false) :
    parseObjectIds ids = .error .invalidIdentifier := by
  induction ids with
  | nil => exact absurd h (by simp)
  | cons x xs ih =>
    by_cases hvx : isValidObjectId x = true
    · have hxs : ∃ y ∈ xs, isValidObjectId y = false := by
        rcases h with ⟨y, hy, hvy⟩
        rcases List.mem_cons.mp hy with rfl | hmem
        · exact absurd hvx (by simp [hvy])
        · exact ⟨y, hmem, hvy⟩
      simp [parseObjectIds, parseObjectId, hvx, ih hxs]
    · simp [parseObjectIds, parseObjectId, hvx]

/-- C5: a comparison request containing an id that is not in the store's
valid identifier format fails with `invalidIdentifier`, and no store
query is issued on that path. -/
theorem compare_invalid_id_no_query (ids : List String)
    (h : ∃ x ∈ ids, isValidObjectId x = false) :
    compare_products ids
      = { queries := [], result := .error .invalidIdentifier } := by
  simp [compare_products, parseObjectIds_error ids h]

/-- Witness for C5 at a concrete malformed id. -/
theorem compare_invalid_id_no_query_witness :
    (∃ x ∈ ["not-an-objectid"], isValidObjectId x = false) ∧
    compare_products ["not-an-objectid"]
      = { queries := [], result := .error .invalidIdentifier } :=
  ⟨⟨"not-an-objectid", by simp, by decide⟩,
    compare_invalid_id_no_query _ ⟨"not-an-objectid", by simp, by decide⟩⟩

/-- C8: the recommendation retrieval requests at most 24 documents, the
ranker only permutes the retrieved set, and the returned list therefore
has length at most 24. -/
theorem recommendations_cap_24 (store : List ProductDoc)
    (req : RecommendationRequest) :
    (get_documents store (get_recommendations_filter req) 24).length ≤ 24 ∧
    List.Perm (get_recommendations store req)
      (get_documents store (get_recommendations_filter req) 24) ∧
    (get_recommendations store req).length ≤ 24 := by
  have hlen : (get_documents store (get_recommendations_filter req) 24).length ≤ 24 := by
    calc (get_documents store (get_recommendations_filter req) 24).length
        = min 24 ((store.filter fun d =>
            (get_recommendations_filter req).matches d).length) :=
          List.length_take _ _
      _ ≤ 24 := min_le_left _ _
  have hperm : List.Perm (get_recommendations store req)
      (get_documents store (get_recommendations_filter req) 24) :=
    List.perm_insertionSort _ _
  exact ⟨hlen, hperm, hperm.length_eq ▸ hlen⟩

/-- C6: with both price bounds present the product filter matches exactly
the documents with a ≤ price ≤ b; each bound is independent, omitting one
keeps only the other; the recommendation budget bounds have the same
inclusive semantics. -/
theorem price_range_filter_inclusive (a b : Money) (hab : a ≤ b)
    (d : ProductDoc) (p : Money) (hp : d.price = some p) :
    ((get_products_filter none none (some a) (some b)).matches d = true
        ↔ a ≤ p ∧ p ≤ b) ∧
    ((get_products_filter none none (some a) none).matches d = true ↔ a ≤ p) ∧
    ((get_products_filter none none none (some b)).matches d = true ↔ p ≤ b) ∧
    ((get_recommendations_filter ⟨some a, some b, none⟩).matches d = true
        ↔ a ≤ p ∧ p ≤ b) ∧
    ((get_recommendations_filter ⟨some a, none, none⟩).matches d = true ↔ a ≤ p) ∧
    ((get_recommendations_filter ⟨none, some b, none⟩).matches d = true ↔ p ≤ b) := by
  refine ⟨?_, ?_, ?_, ?_, ?_, ?_⟩ <;>
    simp [get_products_filter, get_recommendations_filter, ProductFilter.matches,
      PriceCond.holds, hp]

/-- Witness for C6 at concrete bounds 5 ≤ 10 and a document of price 7. -/
theorem price_range_filter_inclusive_witness :
    ((5 : Money) ≤ 10 ∧ (exDoc 7 0).price = some 7) ∧
    (((get_products_filter none none (some 5) (some 10)).matches (exDoc 7 0) = true
        ↔ (5 : Money) ≤ 7 ∧ (7 : Money) ≤ 10) ∧
      ((get_products_filter none none (some 5) none).matches (exDoc 7 0) = true
        ↔ (5 : Money) ≤ 7) ∧
      ((get_products_filter none none none (some 10)).matches (exDoc 7 0) = true
        ↔ (7 : Money) ≤ 10) ∧
      ((get_recommendations_filter ⟨some 5, some 10, none⟩).matches (exDoc 7 0) = true
        ↔ (5 : Money) ≤ 7 ∧ (7 : Money) ≤ 10) ∧
      ((get_recommendations_filter ⟨some 5, none, none⟩).matches (exDoc 7 0) = true
        ↔ (5 : Money) ≤ 7) ∧
      ((get_recommendations_filter ⟨none, some 10, none⟩).matches (exDoc 7 0) = true
        ↔ (7 : Money) ≤ 10)) :=
  ⟨⟨by decide, rfl⟩,
    price_range_filter_inclusive 5 10 (by decide) (exDoc 7 0) 7 rfl⟩

/-- C4: a non-empty q parameter makes the product filter's $or list
exactly the three case-insensitive substring conditions on title,
description and tags, and every product returned for such a query
satisfies at least one of them. -/
theorem product_q_filter_or_shape (s : String) (hs : s ≠ "")
    (category : Option String) (minPrice maxPrice : Option Money)
    (store : List ProductDoc) (limit : ℕ) (d : ProductDoc) :
    (get_products_filter category (some s) minPrice maxPrice).orList
      = [OrClause.regexTitle s, OrClause.regexDescription s, OrClause.regexTags s] ∧
    (d ∈ get_products store category (some s) minPrice maxPrice limit →
      ciContains s d.title ∨ (∃ t, d.description = some t ∧ ciContains s t) ∨
        ∃ t ∈ d.tags, ciContains s t) := by
  have horl : (get_products_filter category (some s) minPrice maxPrice).orList
      = [OrClause.regexTitle s, OrClause.regexDescription s, OrClause.regexTags s] := by
    simp [get_products_filter, hs]
  refine ⟨horl, fun hd => ?_⟩
  have hm : (get_products_filter category (some s) minPrice maxPrice).matches d = true :=
    (List.mem_filter.mp ((List.take_sublist _ _).subset hd)).2
  simp only [ProductFilter.matches, horl, Bool.and_eq_true, List.isEmpty_cons,
    Bool.false_or, List.any_cons, List.any_nil, Bool.or_false, Bool.or_eq_true,
    OrClause.holds, decide_eq_true_eq, List.any_eq_true] at hm
  obtain ⟨-, hor⟩ := hm
  rcases hor with h1 | h2 | h3
  · exact Or.inl h1
  · cases hdesc : d.description with
    | none => rw [hdesc] at h2; simp at h2
    | some t =>
      rw [hdesc] at h2
      simp only [decide_eq_true_eq] at h2
      exact Or.inr (Or.inl ⟨t, rfl, h2⟩)
  · exact Or.inr (Or.inr h3)

/-- Witness for C4 at a concrete query string and document. -/
theorem product_q_filter_or_shape_witness :
    (("a" : String) ≠ "") ∧
    ((get_products_filter none (some "a") none none).orList
        = [OrClause.regexTitle "a", OrClause.regexDescription "a",
            OrClause.regexTags "a"] ∧
      (exDoc 1 1 ∈ get_products [] none (some "a") none none 0 →
        ciContains "a" (exDoc 1 1).title ∨
          (∃ t, (exDoc 1 1).description = some t ∧ ciContains "a" t) ∨
          ∃ t ∈ (exDoc 1 1).tags, ciContains "a" t)) :=
  ⟨by decide, product_q_filter_or_shape "a" (by decide) none none none [] 0 (exDoc 1 1)⟩

/-- C2: the ranker permutes the retrieved list into ascending order of
price (a missing price read as 0) with ties broken by descending rating
(a missing rating read as 0), stably — the subsequence at each fixed sort
key keeps its retrieval order — and the spec's example
[{price 10, rating 2}, {price 10, rating 5}, {price 5, rating 1}] sorts
to [{5,1}, {10,5}, {10,2}]. -/
theorem ranker_sort_spec (l : List ProductDoc) :
    List.Perm (ranker_sort l) l ∧
    List.Pairwise (fun a b =>
      a.price.getD 0 < b.price.getD 0 ∨
        (a.price.getD 0 = b.price.getD 0 ∧ b.rating.getD 0 ≤ a.rating.getD 0))
      (ranker_sort l) ∧
    (∀ k : Money × Money,
      (ranker_sort l).filter (fun d => decide (rankKey d = k))
        = l.filter (fun d => decide (rankKey d = k))) ∧
    ranker_sort [exDoc 10 2, exDoc 10 5, exDoc 5 1]
      = [exDoc 5 1, exDoc 10 5, exDoc 10 2] := by
  refine ⟨List.perm_insertionSort _ _, ?_, fun k => ranker_sort_stable k l, by decide⟩
  have hs : List.Sorted rankLE (ranker_sort l) := List.sorted_insertionSort _ _
  exact hs.imp fun hab => by
    rcases hab with h | ⟨h1, h2⟩
    · exact Or.inl h
    · exact Or.inr ⟨h1, neg_le_neg_iff.mp h2⟩
